import Mathlib

/-!
Verification of the DMS test-automation harness.

This file gives a shallow embedding, in Lean, of the reusable core of the
repository: the `DmsApiClient` HTTP wrapper and its response-validation
helpers (src/utils/apiClient.ts), the form-filling and calendar page-object
operations (src/pages/RepairOrdersPage.ts, src/pages/AppointmentsPage.ts,
src/pages/BasePage.ts), and the test-data generators (src/utils/testData.ts).
JavaScript exceptions are embedded as `Except String`, JavaScript runtime
values as the inductive `JsValue`, and the external browser/HTTP engine is
modelled at the boundary the spec describes in its section 6.  Theorems C1
to C10 settle the frozen claims about this code.
-/

-- ====================
-- JavaScript value model
-- ====================

/-- Model of a JavaScript runtime value as it appears in the API payloads and
response bodies handled by the harness: strings, integral numbers, booleans,
null and undefined.  Strict equality on these primitives is structural, so
the derived decidable equality models the `!==` operator of the source. -/
inductive JsValue where
  | vStr (s : String)
  | vNum (n : Int)
  | vBool (b : Bool)
  | vNull
  | vUndefined
deriving DecidableEq

/-- Model of JavaScript string interpolation of a value inside a template
literal, as used by the assertion error messages of src/utils/apiClient.ts. -/
def JsValue.interp : JsValue → String
  | .vStr s => s
  | .vNum n => toString n
  | .vBool true => "true"
  | .vBool false => "false"
  | .vNull => "null"
  | .vUndefined => "undefined"

/-- Model of JavaScript property access `body[key]` on a plain object: the
bound value when the key is present, `undefined` otherwise. -/
def jsIndex (body : List (String × JsValue)) (key : String) : JsValue :=
  match body.lookup key with
  | some v => v
  | none => .vUndefined

/-- `strOccursIn s sub` states that `sub` occurs as a contiguous substring of
`s`; used to state that an error message carries a given piece of data. -/
def strOccursIn (s sub : String) : Prop :=
  ∃ l r, s = l ++ sub ++ r

-- ====================
-- HTTP layer model (spec section 6 boundary)
-- ====================

/-- An HTTP method as used by the client. -/
inductive HttpMethod where
  | get
  | post
  | patch
  | delete
deriving DecidableEq

/-- An HTTP request as handed by the client to the external HTTP engine:
method, endpoint URL, and optional JSON payload. -/
structure HttpRequest where
  method : HttpMethod
  url : String
  data : Option (List (String × JsValue))
deriving DecidableEq

/-- Model of the external HTTP request context (spec section 6): it carries
the base URL and default headers established by `init()`.  Its verb methods
below record the request that Playwright would place on the wire. -/
structure APIRequestContext where
  baseURL : String
  headers : List (String × String)
deriving DecidableEq

def APIRequestContext.get (_ctx : APIRequestContext) (endpoint : String) : HttpRequest :=
  { method := HttpMethod.get, url := endpoint, data := none }

def APIRequestContext.post (_ctx : APIRequestContext) (endpoint : String)
    (data : List (String × JsValue)) : HttpRequest :=
  { method := HttpMethod.post, url := endpoint, data := some data }

def APIRequestContext.patch (_ctx : APIRequestContext) (endpoint : String)
    (data : List (String × JsValue)) : HttpRequest :=
  { method := HttpMethod.patch, url := endpoint, data := some data }

def APIRequestContext.delete (_ctx : APIRequestContext) (endpoint : String) : HttpRequest :=
  { method := HttpMethod.delete, url := endpoint, data := none }

/-- Model of `URLSearchParams(filters).toString()` for the plain key/value
filters used by the harness; percent-encoding of reserved characters is not
modelled because it does not affect any claim. -/
def urlSearchParamsToString (filters : List (String × String)) : String :=
  String.intercalate "&" (filters.map (fun p => p.1 ++ "=" ++ p.2))

-- ====================
-- DmsApiClient (src/utils/apiClient.ts)
-- ====================

/-- The DMS API client state: the request context is `none` until `init()`
has been called, mirroring the `apiContext: APIRequestContext | null = null`
field of the source class. -/
structure DmsApiClient where
  apiContext : Option APIRequestContext
  baseURL : String
  authToken : String

/-- The message of the error thrown by `getContext` before initialization. -/
def notInitializedMsg : String :=
  "API context not initialized. Call init() before making requests."

/-- `DmsApiClient.getContext`: returns the initialized context or throws. -/
def DmsApiClient.getContext (c : DmsApiClient) : Except String APIRequestContext :=
  match c.apiContext with
  | none => Except.error notInitializedMsg
  | some ctx => Except.ok ctx

/-- `DmsApiClient.init`: establishes the request context from the client
configuration, as `request.newContext` does in the source. -/
def DmsApiClient.init (c : DmsApiClient) : DmsApiClient :=
  let ctx : APIRequestContext :=
    { baseURL := c.baseURL
      headers := [("Authorization", "Bearer " ++ c.authToken),
                  ("Content-Type", "application/json")] }
  { c with apiContext := some ctx }

/-- The list of HTTP requests an operation actually places on the wire: one
on success, none when the operation threw before reaching the engine. -/
def requestsIssued (r : Except String HttpRequest) : List HttpRequest :=
  match r with
  | Except.ok q => [q]
  | Except.error _ => []

def DmsApiClient.getRepairOrders (c : DmsApiClient) : Except String HttpRequest :=
  match c.getContext with
  | Except.error e => Except.error e
  | Except.ok context => Except.ok (context.get "/repair-orders")

def DmsApiClient.getRepairOrderById (c : DmsApiClient) (orderId : String) :
    Except String HttpRequest :=
  match c.getContext with
  | Except.error e => Except.error e
  | Except.ok context => Except.ok (context.get ("/repair-orders/" ++ orderId))

def DmsApiClient.createRepairOrder (c : DmsApiClient)
    (orderData : List (String × JsValue)) : Except String HttpRequest :=
  match c.getContext with
  | Except.error e => Except.error e
  | Except.ok context => Except.ok (context.post "/repair-orders" orderData)

def DmsApiClient.updateRepairOrder (c : DmsApiClient) (orderId : String)
    (updateData : List (String × JsValue)) : Except String HttpRequest :=
  match c.getContext with
  | Except.error e => Except.error e
  | Except.ok context =>
      Except.ok (context.patch ("/repair-orders/" ++ orderId) updateData)

def DmsApiClient.deleteRepairOrder (c : DmsApiClient) (orderId : String) :
    Except String HttpRequest :=
  match c.getContext with
  | Except.error e => Except.error e
  | Except.ok context => Except.ok (context.delete ("/repair-orders/" ++ orderId))

def DmsApiClient.searchRepairOrders (c : DmsApiClient)
    (filters : List (String × String)) : Except String HttpRequest :=
  match c.getContext with
  | Except.error e => Except.error e
  | Except.ok context =>
      Except.ok (context.get ("/repair-orders?" ++ urlSearchParamsToString filters))

def DmsApiClient.getAppointments (c : DmsApiClient) : Except String HttpRequest :=
  match c.getContext with
  | Except.error e => Except.error e
  | Except.ok context => Except.ok (context.get "/appointments")

def DmsApiClient.getAppointmentById (c : DmsApiClient) (appointmentId : String) :
    Except String HttpRequest :=
  match c.getContext with
  | Except.error e => Except.error e
  | Except.ok context => Except.ok (context.get ("/appointments/" ++ appointmentId))

def DmsApiClient.createAppointment (c : DmsApiClient)
    (appointmentData : List (String × JsValue)) : Except String HttpRequest :=
  match c.getContext with
  | Except.error e => Except.error e
  | Except.ok context => Except.ok (context.post "/appointments" appointmentData)

def DmsApiClient.updateAppointment (c : DmsApiClient) (appointmentId : String)
    (updateData : List (String × JsValue)) : Except String HttpRequest :=
  match c.getContext with
  | Except.error e => Except.error e
  | Except.ok context =>
      Except.ok (context.patch ("/appointments/" ++ appointmentId) updateData)

def DmsApiClient.cancelAppointment (c : DmsApiClient) (appointmentId : String) :
    Except String HttpRequest :=
  match c.getContext with
  | Except.error e => Except.error e
  | Except.ok context => Except.ok (context.delete ("/appointments/" ++ appointmentId))

def DmsApiClient.authenticate (c : DmsApiClient) (username password : String) :
    Except String HttpRequest :=
  match c.getContext with
  | Except.error e => Except.error e
  | Except.ok context =>
      Except.ok (context.post "/auth/login"
        [("username", JsValue.vStr username), ("password", JsValue.vStr password)])

def DmsApiClient.validateToken (c : DmsApiClient) : Except String HttpRequest :=
  match c.getContext with
  | Except.error e => Except.error e
  | Except.ok context => Except.ok (context.get "/auth/validate")

def DmsApiClient.get (c : DmsApiClient) (endpoint : String) :
    Except String HttpRequest :=
  match c.getContext with
  | Except.error e => Except.error e
  | Except.ok context => Except.ok (context.get endpoint)

def DmsApiClient.post (c : DmsApiClient) (endpoint : String)
    (data : List (String × JsValue)) : Except String HttpRequest :=
  match c.getContext with
  | Except.error e => Except.error e
  | Except.ok context => Except.ok (context.post endpoint data)

def DmsApiClient.patch (c : DmsApiClient) (endpoint : String)
    (data : List (String × JsValue)) : Except String HttpRequest :=
  match c.getContext with
  | Except.error e => Except.error e
  | Except.ok context => Except.ok (context.patch endpoint data)

def DmsApiClient.delete (c : DmsApiClient) (endpoint : String) :
    Except String HttpRequest :=
  match c.getContext with
  | Except.error e => Except.error e
  | Except.ok context => Except.ok (context.delete endpoint)

-- ====================
-- Response validation helpers (src/utils/apiClient.ts)
-- ====================

/-- An API response as the assertion helpers see it: the part they consume is
the status code returned by `response.status()`. -/
structure ApiResponse where
  status : Nat

/-- `assertStatus`: compares the actual status code against the expected one
and throws a descriptive mismatch error when they differ. -/
def assertStatus (response : ApiResponse) (expectedStatus : Nat) : Except String Unit :=
  let actualStatus := response.status
  if actualStatus ≠ expectedStatus then
    Except.error ("Expected status " ++ toString expectedStatus ++
      ", but got " ++ toString actualStatus)
  else
    Except.ok ()

/-- The message built by `assertResponseContains` for a mismatched key. -/
def mismatchMsg (key : String) (expectedValue actualValue : JsValue) : String :=
  "Expected " ++ key ++ " to be \"" ++ expectedValue.interp ++
    "\", but got \"" ++ actualValue.interp ++ "\""

/-- `assertResponseContains`: walks the expected key/value pairs in order and
throws on the first key whose value in the body differs strictly from the
expected value. -/
def assertResponseContains (responseBody expectedData : List (String × JsValue)) :
    Except String Unit :=
  match expectedData with
  | [] => Except.ok ()
  | (key, expectedValue) :: rest =>
      let actualValue := jsIndex responseBody key
      if actualValue ≠ expectedValue then
        Except.error (mismatchMsg key expectedValue actualValue)
      else
        assertResponseContains responseBody rest

-- ====================
-- Form filling (src/pages/RepairOrdersPage.ts, src/pages/AppointmentsPage.ts)
-- ====================

/-- The form fields of the repair-order create/edit form, one per input
locator of `RepairOrdersPage` (the status field is a dropdown). -/
inductive RoField where
  | customerName
  | vehicleVin
  | vehicleMake
  | vehicleModel
  | vehicleYear
  | description
  | estimatedCost
  | status
deriving DecidableEq

/-- The form fields of the appointment scheduling form, one per input
locator of `AppointmentsPage` (serviceType and preferredTime are dropdowns). -/
inductive ApptField where
  | customerName
  | phoneNumber
  | email
  | serviceType
  | vehicleVin
  | preferredDate
  | preferredTime
  | notes
deriving DecidableEq

/-- One guarded fill statement of the source, `if (data.x) fill(xInput, data.x)`:
when the supplied value is truthy (defined and non-empty, JavaScript string
truthiness) the field is written through `fill`/`selectOption`, which set the
field to exactly that value; otherwise the statement does nothing. -/
def condFill {F : Type} [DecidableEq F] (s : F → String) (g : F) (v : Option String) :
    F → String :=
  match v with
  | some x => if x = "" then s else Function.update s g x
  | none => s

/-- The value a guarded fill leaves in its own target field. -/
def condFillVal (v : Option String) (old : String) : String :=
  match v with
  | some x => if x = "" then old else x
  | none => old

/-- The `orderData` argument of `fillRepairOrderForm`: every field optional. -/
structure RepairOrderFormData where
  customerName : Option String
  vehicleVin : Option String
  vehicleMake : Option String
  vehicleModel : Option String
  vehicleYear : Option String
  description : Option String
  estimatedCost : Option String
  status : Option String

/-- The payload entry of `orderData` addressing a given form field. -/
def RepairOrderFormData.field (d : RepairOrderFormData) : RoField → Option String
  | RoField.customerName => d.customerName
  | RoField.vehicleVin => d.vehicleVin
  | RoField.vehicleMake => d.vehicleMake
  | RoField.vehicleModel => d.vehicleModel
  | RoField.vehicleYear => d.vehicleYear
  | RoField.description => d.description
  | RoField.estimatedCost => d.estimatedCost
  | RoField.status => d.status

/-- `RepairOrdersPage.fillRepairOrderForm`: the eight guarded fill statements
of the source, in source order, acting on the rendered form state. -/
def fillRepairOrderForm (orderData : RepairOrderFormData) (s : RoField → String) :
    RoField → String :=
  let s1 := condFill s RoField.customerName orderData.customerName
  let s2 := condFill s1 RoField.vehicleVin orderData.vehicleVin
  let s3 := condFill s2 RoField.vehicleMake orderData.vehicleMake
  let s4 := condFill s3 RoField.vehicleModel orderData.vehicleModel
  let s5 := condFill s4 RoField.vehicleYear orderData.vehicleYear
  let s6 := condFill s5 RoField.description orderData.description
  let s7 := condFill s6 RoField.estimatedCost orderData.estimatedCost
  condFill s7 RoField.status orderData.status

/-- The `appointmentData` argument of `fillAppointmentForm`. -/
structure AppointmentFormData where
  customerName : Option String
  phoneNumber : Option String
  email : Option String
  serviceType : Option String
  vehicleVin : Option String
  preferredDate : Option String
  preferredTime : Option String
  notes : Option String

/-- The payload entry of `appointmentData` addressing a given form field. -/
def AppointmentFormData.field (d : AppointmentFormData) : ApptField → Option String
  | ApptField.customerName => d.customerName
  | ApptField.phoneNumber => d.phoneNumber
  | ApptField.email => d.email
  | ApptField.serviceType => d.serviceType
  | ApptField.vehicleVin => d.vehicleVin
  | ApptField.preferredDate => d.preferredDate
  | ApptField.preferredTime => d.preferredTime
  | ApptField.notes => d.notes

/-- `AppointmentsPage.fillAppointmentForm`: the eight guarded fill statements
of the source, in source order. -/
def fillAppointmentForm (appointmentData : AppointmentFormData) (s : ApptField → String) :
    ApptField → String :=
  let s1 := condFill s ApptField.customerName appointmentData.customerName
  let s2 := condFill s1 ApptField.phoneNumber appointmentData.phoneNumber
  let s3 := condFill s2 ApptField.email appointmentData.email
  let s4 := condFill s3 ApptField.serviceType appointmentData.serviceType
  let s5 := condFill s4 ApptField.vehicleVin appointmentData.vehicleVin
  let s6 := condFill s5 ApptField.preferredDate appointmentData.preferredDate
  let s7 := condFill s6 ApptField.preferredTime appointmentData.preferredTime
  condFill s7 ApptField.notes appointmentData.notes

-- ====================
-- Visibility probe (src/pages/BasePage.ts)
-- ====================

/-- Model of the engine's bounded visibility wait (spec sections 4.1 and 6).
An element's behaviour is abstracted as the time, in milliseconds, at which
it becomes visible, or `none` when it is absent or never becomes visible;
`waitFor` succeeds when that time is within the timeout and otherwise throws
a timeout error. -/
def waitForVisible (becomesVisibleAt : Option Nat) (timeout : Nat) : Except String Unit :=
  match becomesVisibleAt with
  | some t =>
      if t ≤ timeout then Except.ok ()
      else Except.error "Timeout exceeded while waiting for element to be visible"
  | none => Except.error "Timeout exceeded while waiting for element to be visible"

/-- `BasePage.isVisible`: wraps a visibility wait with the fixed 5000 ms
timeout in try/catch, returning true on success and false on any throw. -/
def isVisible (becomesVisibleAt : Option Nat) : Except String Bool :=
  match waitForVisible becomesVisibleAt 5000 with
  | Except.ok _ => Except.ok true
  | Except.error _ => Except.ok false

-- ====================
-- Calendar navigation (src/pages/AppointmentsPage.ts)
-- ====================

/-- Modelled from the spec: the calendar widget of the application under
test, whose code is not part of this repository.  Per spec sections 4.2 and
8 the widget displays one month at a time; its state is the index of the
displayed month counted from January 1970. -/
structure CalendarState where
  monthIndex : Int

/-- Modelled from the spec: clicking the next-month button moves the
displayed month one forward. -/
def clickNextMonthButton (s : CalendarState) : CalendarState :=
  { monthIndex := s.monthIndex + 1 }

/-- Modelled from the spec: clicking the previous-month button moves the
displayed month one back. -/
def clickPreviousMonthButton (s : CalendarState) : CalendarState :=
  { monthIndex := s.monthIndex - 1 }

/-- `page.waitForTimeout`: waiting changes nothing about the rendered month. -/
def waitMs (_milliseconds : Nat) (s : CalendarState) : CalendarState := s

/-- The month label rendered for a month index, e.g. "January 2024". -/
def monthLabel (i : Int) : String :=
  let names := ["January", "February", "March", "April", "May", "June", "July",
    "August", "September", "October", "November", "December"]
  names.getD (Int.toNat (i % 12)) "" ++ " " ++ toString (1970 + i / 12)

/-- `AppointmentsPage.getCurrentMonth`: reads the displayed month label. -/
def AppointmentsPage.getCurrentMonth (s : CalendarState) : String :=
  monthLabel s.monthIndex

/-- `AppointmentsPage.goToNextMonth`: click next, then wait 500 ms. -/
def AppointmentsPage.goToNextMonth (s : CalendarState) : CalendarState :=
  waitMs 500 (clickNextMonthButton s)

/-- `AppointmentsPage.goToPreviousMonth`: click previous, then wait 500 ms. -/
def AppointmentsPage.goToPreviousMonth (s : CalendarState) : CalendarState :=
  waitMs 500 (clickPreviousMonthButton s)

-- ====================
-- Test data generators (src/utils/testData.ts)
-- ====================

/-- JavaScript `Date.getDay` for a date given as a count of days since
1970-01-01, which was a Thursday (day-of-week 4); Sunday is 0.  The model
assumes the runtime timezone is UTC, so that `getDay`, `setDate` and
`toISOString` in the source all see the same calendar day. -/
def dayOfWeek (epochDay : Nat) : Nat :=
  (epochDay + 4) % 7

/-- Conversion from a count of days since 1970-01-01 to a Gregorian
(year, month, day) triple, as `toISOString` performs it; the standard
era-based civil-from-days computation. -/
def civilFromDays (z : Nat) : Nat × Nat × Nat :=
  let shifted := z + 719468
  let era := shifted / 146097
  let doe := shifted % 146097
  let yoe := (doe - doe / 1460 + doe / 36524 - doe / 146097) / 365
  let y := yoe + era * 400
  let doy := doe - (365 * yoe + yoe / 4 - yoe / 100)
  let mp := (5 * doy + 2) / 153
  let d := doy - (153 * mp + 2) / 5 + 1
  let m := if mp < 10 then mp + 3 else mp - 9
  (if m ≤ 2 then y + 1 else y, m, d)

/-- The decimal digit list of a natural number, most significant first;
models JavaScript `Number.prototype.toString` on the naturals the harness
renders. -/
def decDigits (n : Nat) : List Char :=
  if _h : n < 10 then [Nat.digitChar n]
  else decDigits (n / 10) ++ [Nat.digitChar (n % 10)]
decreasing_by exact Nat.div_lt_self (by omega) (by omega)

/-- Decimal rendering of a natural number. -/
def decString (n : Nat) : String :=
  String.mk (decDigits n)

/-- JavaScript `String.prototype.padStart` with a single-character pad. -/
def padStart (s : String) (targetLength : Nat) (padChar : Char) : String :=
  String.mk (List.replicate (targetLength - s.length) padChar) ++ s

/-- The `YYYY-MM-DD` rendering of a civil date, as produced by
`toISOString().split("T")[0]`. -/
def formatYMD : Nat × Nat × Nat → String
  | (y, m, d) =>
      padStart (decString y) 4 '0' ++ "-" ++ padStart (decString m) 2 '0' ++
        "-" ++ padStart (decString d) 2 '0'

/-- `getNextBusinessDay` of src/utils/testData.ts, with the current date
abstracted as its epoch-day number: add one day, except three from a Friday
and two from a Saturday, then render the resulting date. -/
def getNextBusinessDay (today : Nat) : String :=
  let daysToAdd0 := 1
  let daysToAdd1 := if dayOfWeek today = 5 then 3 else daysToAdd0
  let daysToAdd := if dayOfWeek today = 6 then 2 else daysToAdd1
  formatYMD (civilFromDays (today + daysToAdd))

/-- The first Monday strictly after the given day. -/
def followingMonday (today : Nat) : Nat :=
  let k := (8 - dayOfWeek today) % 7
  today + (if k = 0 then 7 else k)

/-- The VIN alphabet of `generateRandomVIN`: digits and uppercase letters
without I, O and Q. -/
def vinChars : String :=
  "ABCDEFGHJKLMNPRSTUVWXYZ0123456789"

/-- JavaScript `String.prototype.charAt`: a one-character string, or the
empty string when the index is out of range. -/
def charAt (s : String) (i : Nat) : String :=
  match s.data.get? i with
  | some c => String.mk [c]
  | none => ""

/-- The `for` loop of `generateRandomVIN` after `n` iterations.  The
randomness source is abstracted as `r i`, the value of
`Math.floor(Math.random() * chars.length)` drawn at iteration `i`; since
`Math.random()` is in `[0, 1)` every draw is below 33. -/
def vinLoop (r : Nat → Nat) : Nat → String
  | 0 => ""
  | i + 1 => vinLoop r i ++ charAt vinChars (r i)

/-- `generateRandomVIN`: seventeen characters drawn from the VIN alphabet. -/
def generateRandomVIN (r : Nat → Nat) : String :=
  vinLoop r 17

/-- `generateOrderNumber`, with the current year and the random draw
abstracted: `year` models `new Date().getFullYear()` and `rnd` models
`Math.floor(Math.random() * 99999)`, hence `rnd < 99999`. -/
def generateOrderNumber (year rnd : Nat) : String :=
  "RO-" ++ decString year ++ "-" ++ padStart (decString rnd) 5 '0'

-- ====================
-- Lemmas and claim theorems
-- ====================

/-- C1: every operation of an uninitialized `DmsApiClient` fails with the
not-initialized error and places no HTTP request on the wire. -/
theorem C1_uninitialized_client_guard (c : DmsApiClient) (h : c.apiContext = none) :
    (c.getRepairOrders = Except.error notInitializedMsg ∧
      requestsIssued c.getRepairOrders = []) ∧
    (∀ orderId, c.getRepairOrderById orderId = Except.error notInitializedMsg ∧
      requestsIssued (c.getRepairOrderById orderId) = []) ∧
    (∀ d, c.createRepairOrder d = Except.error notInitializedMsg ∧
      requestsIssued (c.createRepairOrder d) = []) ∧
    (∀ orderId d, c.updateRepairOrder orderId d = Except.error notInitializedMsg ∧
      requestsIssued (c.updateRepairOrder orderId d) = []) ∧
    (∀ orderId, c.deleteRepairOrder orderId = Except.error notInitializedMsg ∧
      requestsIssued (c.deleteRepairOrder orderId) = []) ∧
    (∀ filters, c.searchRepairOrders filters = Except.error notInitializedMsg ∧
      requestsIssued (c.searchRepairOrders filters) = []) ∧
    (c.getAppointments = Except.error notInitializedMsg ∧
      requestsIssued c.getAppointments = []) ∧
    (∀ apptId, c.getAppointmentById apptId = Except.error notInitializedMsg ∧
      requestsIssued (c.getAppointmentById apptId) = []) ∧
    (∀ d, c.createAppointment d = Except.error notInitializedMsg ∧
      requestsIssued (c.createAppointment d) = []) ∧
    (∀ apptId d, c.updateAppointment apptId d = Except.error notInitializedMsg ∧
      requestsIssued (c.updateAppointment apptId d) = []) ∧
    (∀ apptId, c.cancelAppointment apptId = Except.error notInitializedMsg ∧
      requestsIssued (c.cancelAppointment apptId) = []) ∧
    (∀ u p, c.authenticate u p = Except.error notInitializedMsg ∧
      requestsIssued (c.authenticate u p) = []) ∧
    (c.validateToken = Except.error notInitializedMsg ∧
      requestsIssued c.validateToken = []) ∧
    (∀ e, c.get e = Except.error notInitializedMsg ∧
      requestsIssued (c.get e) = []) ∧
    (∀ e d, c.post e d = Except.error notInitializedMsg ∧
      requestsIssued (c.post e d) = []) ∧
    (∀ e d, c.patch e d = Except.error notInitializedMsg ∧
      requestsIssued (c.patch e d) = []) ∧
    (∀ e, c.delete e = Except.error notInitializedMsg ∧
      requestsIssued (c.delete e) = []) := by
  have hctx : c.getContext = Except.error notInitializedMsg := by
    unfold DmsApiClient.getContext
    rw [h]
  refine ⟨?_, ?_, ?_, ?_, ?_, ?_, ?_, ?_, ?_, ?_, ?_, ?_, ?_, ?_, ?_, ?_, ?_⟩ <;>
    simp [DmsApiClient.getRepairOrders, DmsApiClient.getRepairOrderById,
      DmsApiClient.createRepairOrder, DmsApiClient.updateRepairOrder,
      DmsApiClient.deleteRepairOrder, DmsApiClient.searchRepairOrders,
      DmsApiClient.getAppointments, DmsApiClient.getAppointmentById,
      DmsApiClient.createAppointment, DmsApiClient.updateAppointment,
      DmsApiClient.cancelAppointment, DmsApiClient.authenticate,
      DmsApiClient.validateToken, DmsApiClient.get,
      DmsApiClient.post, DmsApiClient.patch,
      DmsApiClient.delete, hctx, requestsIssued]

/-- C1 witness: the guard in action on a concrete never-initialized client. -/
theorem C1_uninitialized_client_guard_witness :
    (DmsApiClient.mk none "https://api.example-dms.com/v1" "default-test-token").apiContext
        = none ∧
    (DmsApiClient.mk none "https://api.example-dms.com/v1"
        "default-test-token").getRepairOrders = Except.error notInitializedMsg :=
  ⟨rfl,
    (C1_uninitialized_client_guard
      (DmsApiClient.mk none "https://api.example-dms.com/v1" "default-test-token")
      rfl).1.1⟩

lemma mismatchMsg_carries (key : String) (ev av : JsValue) :
    strOccursIn (mismatchMsg key ev av) key ∧
    strOccursIn (mismatchMsg key ev av) ev.interp ∧
    strOccursIn (mismatchMsg key ev av) av.interp := by
  refine ⟨⟨"Expected ", " to be \"" ++ ev.interp ++ "\", but got \"" ++ av.interp ++ "\"", ?_⟩,
    ⟨"Expected " ++ key ++ " to be \"", "\", but got \"" ++ av.interp ++ "\"", ?_⟩,
    ⟨"Expected " ++ key ++ " to be \"" ++ ev.interp ++ "\", but got \"", "\"", ?_⟩⟩ <;>
  simp [mismatchMsg, String.append_assoc]

lemma assertResponseContains_ok_iff (body expected : List (String × JsValue)) :
    assertResponseContains body expected = Except.ok () ↔
      ∀ p ∈ expected, jsIndex body p.1 = p.2 := by
  induction expected with
  | nil => simp [assertResponseContains]
  | cons hd tl ih =>
      obtain ⟨k, v⟩ := hd
      by_cases h : jsIndex body k = v <;>
        simp [assertResponseContains, h, ih]

lemma assertResponseContains_frame (body body2 expected : List (String × JsValue))
    (h : ∀ p ∈ expected, jsIndex body2 p.1 = jsIndex body p.1) :
    assertResponseContains body2 expected = assertResponseContains body expected := by
  induction expected with
  | nil => simp [assertResponseContains]
  | cons hd tl ih =>
      obtain ⟨k, v⟩ := hd
      have hk : jsIndex body2 k = jsIndex body k := h (k, v) (List.mem_cons_self _ _)
      have htl : ∀ p ∈ tl, jsIndex body2 p.1 = jsIndex body p.1 :=
        fun p hp => h p (List.mem_cons_of_mem _ hp)
      simp only [assertResponseContains, hk, ih htl]

lemma assertResponseContains_error (body expected : List (String × JsValue))
    (msg : String) (h : assertResponseContains body expected = Except.error msg) :
    ∃ p ∈ expected, jsIndex body p.1 ≠ p.2 ∧
      msg = mismatchMsg p.1 p.2 (jsIndex body p.1) := by
  induction expected with
  | nil => simp [assertResponseContains] at h
  | cons hd tl ih =>
      obtain ⟨k, v⟩ := hd
      by_cases hk : jsIndex body k = v
      · simp only [assertResponseContains, hk, ne_eq, not_true_eq_false, if_false] at h
        obtain ⟨p, hp, hne, hmsg⟩ := ih h
        exact ⟨p, List.mem_cons_of_mem _ hp, hne, hmsg⟩
      · simp only [assertResponseContains, ne_eq, hk, not_false_eq_true, if_true,
          Except.error.injEq] at h
        exact ⟨(k, v), List.mem_cons_self _ _, hk, h.symm⟩

/-- C4: assertStatus succeeds exactly when the actual status equals the
expected one, and otherwise throws an error whose message carries both the
expected and the actual status code. -/
theorem C4_assertStatus_mismatch_message (r : ApiResponse) (e : Nat) :
    (assertStatus r e = Except.ok () ↔ r.status = e) ∧
    (r.status ≠ e → ∃ msg, assertStatus r e = Except.error msg ∧
      strOccursIn msg (toString e) ∧ strOccursIn msg (toString r.status)) := by
  constructor
  · by_cases h : r.status = e <;> simp [assertStatus, h]
  · intro h
    refine ⟨"Expected status " ++ toString e ++ ", but got " ++ toString r.status, ?_, ?_, ?_⟩
    · simp [assertStatus, h]
    · exact ⟨"Expected status ", ", but got " ++ toString r.status,
        by simp [String.append_assoc]⟩
    · exact ⟨"Expected status " ++ toString e ++ ", but got ", "",
        by simp [String.append_assoc]⟩

/-- C4 witness: a 404 response checked against an expected 200. -/
theorem C4_assertStatus_mismatch_message_witness :
    (ApiResponse.mk 404).status ≠ 200 ∧
    (∃ msg, assertStatus (ApiResponse.mk 404) 200 = Except.error msg ∧
      strOccursIn msg (toString 200) ∧ strOccursIn msg (toString 404)) :=
  ⟨by decide, (C4_assertStatus_mismatch_message (ApiResponse.mk 404) 200).2 (by decide)⟩

/-- C3: assertResponseContains succeeds exactly when every expected key maps
in the body to the strictly-equal expected value; body keys outside the
expected map never change the outcome; and a thrown message names the
offending key with the expected and actual values. -/
theorem C3_assertResponseContains_subset_semantics
    (body expected : List (String × JsValue)) :
    (assertResponseContains body expected = Except.ok () ↔
      ∀ p ∈ expected, jsIndex body p.1 = p.2) ∧
    (∀ body2, (∀ p ∈ expected, jsIndex body2 p.1 = jsIndex body p.1) →
      assertResponseContains body2 expected = assertResponseContains body expected) ∧
    (∀ msg, assertResponseContains body expected = Except.error msg →
      ∃ p ∈ expected, jsIndex body p.1 ≠ p.2 ∧
        msg = mismatchMsg p.1 p.2 (jsIndex body p.1) ∧
        strOccursIn msg p.1 ∧ strOccursIn msg p.2.interp ∧
        strOccursIn msg (jsIndex body p.1).interp) := by
  refine ⟨assertResponseContains_ok_iff body expected,
    fun body2 h => assertResponseContains_frame body body2 expected h,
    fun msg h => ?_⟩
  obtain ⟨p, hp, hne, hmsg⟩ := assertResponseContains_error body expected msg h
  obtain ⟨h1, h2, h3⟩ := mismatchMsg_carries p.1 p.2 (jsIndex body p.1)
  exact ⟨p, hp, hne, hmsg, hmsg ▸ h1, hmsg ▸ h2, hmsg ▸ h3⟩

/-- C3 witness: a body whose status field differs from the expected one. -/
theorem C3_assertResponseContains_subset_semantics_witness :
    assertResponseContains [("status", JsValue.vStr "Pending")]
        [("status", JsValue.vStr "Completed")] =
      Except.error (mismatchMsg "status" (JsValue.vStr "Completed")
        (JsValue.vStr "Pending")) ∧
    (∃ p ∈ [("status", JsValue.vStr "Completed")],
      jsIndex [("status", JsValue.vStr "Pending")] p.1 ≠ p.2 ∧
      mismatchMsg "status" (JsValue.vStr "Completed") (JsValue.vStr "Pending") =
        mismatchMsg p.1 p.2 (jsIndex [("status", JsValue.vStr "Pending")] p.1) ∧
      strOccursIn (mismatchMsg "status" (JsValue.vStr "Completed")
        (JsValue.vStr "Pending")) p.1 ∧
      strOccursIn (mismatchMsg "status" (JsValue.vStr "Completed")
        (JsValue.vStr "Pending")) p.2.interp ∧
      strOccursIn (mismatchMsg "status" (JsValue.vStr "Completed")
        (JsValue.vStr "Pending"))
        (jsIndex [("status", JsValue.vStr "Pending")] p.1).interp) :=
  ⟨rfl,
    (C3_assertResponseContains_subset_semantics
        [("status", JsValue.vStr "Pending")] [("status", JsValue.vStr "Completed")]).2.2
      (mismatchMsg "status" (JsValue.vStr "Completed") (JsValue.vStr "Pending")) rfl⟩

lemma condFill_ne {F : Type} [DecidableEq F] (s : F → String) (g : F) (v : Option String)
    (f : F) (h : f ≠ g) : condFill s g v f = s f := by
  cases v with
  | none => rfl
  | some x =>
      by_cases hx : x = "" <;> simp [condFill, hx, Function.update_noteq h]

lemma condFill_self {F : Type} [DecidableEq F] (s : F → String) (g : F)
    (v : Option String) : condFill s g v g = condFillVal v (s g) := by
  cases v with
  | none => rfl
  | some x => by_cases hx : x = "" <;> simp [condFill, condFillVal, hx]

lemma fillRepairOrderForm_apply (d : RepairOrderFormData) (s : RoField → String)
    (f : RoField) : fillRepairOrderForm d s f = condFillVal (d.field f) (s f) := by
  cases f <;>
    simp [fillRepairOrderForm, RepairOrderFormData.field, condFill_ne, condFill_self]

lemma fillAppointmentForm_apply (d : AppointmentFormData) (s : ApptField → String)
    (f : ApptField) : fillAppointmentForm d s f = condFillVal (d.field f) (s f) := by
  cases f <;>
    simp [fillAppointmentForm, AppointmentFormData.field, condFill_ne, condFill_self]

/-- C2: form filling writes only the supplied fields; any field the payload
does not supply keeps its previous value, for both forms. -/
theorem C2_fill_form_frame :
    (∀ (d : RepairOrderFormData) (s : RoField → String) (f : RoField),
      d.field f = none → fillRepairOrderForm d s f = s f) ∧
    (∀ (a : AppointmentFormData) (t : ApptField → String) (f : ApptField),
      a.field f = none → fillAppointmentForm a t f = t f) := by
  constructor
  · intro d s f h
    rw [fillRepairOrderForm_apply, h]
    rfl
  · intro a t f h
    rw [fillAppointmentForm_apply, h]
    rfl

/-- C2 witness: a payload supplying only the customer name leaves the VIN
field of the repair-order form untouched. -/
theorem C2_fill_form_frame_witness :
    (RepairOrderFormData.mk (some "Jane Doe") none none none none none none
        none).field RoField.vehicleVin = none ∧
    fillRepairOrderForm
        (RepairOrderFormData.mk (some "Jane Doe") none none none none none none none)
        (fun _ => "1FADP3K29JL234567") RoField.vehicleVin = "1FADP3K29JL234567" :=
  ⟨rfl,
    (C2_fill_form_frame.1
      (RepairOrderFormData.mk (some "Jane Doe") none none none none none none none)
      (fun _ => "1FADP3K29JL234567") RoField.vehicleVin rfl)⟩

/-- C10: a supplied empty-string field is treated as not supplied (the fill
is skipped), and neither helper can ever leave a field holding the empty
string unless it already held the empty string. -/
theorem C10_falsy_fields_skipped :
    (∀ (d : RepairOrderFormData) (s : RoField → String) (f : RoField),
      d.field f = some "" → fillRepairOrderForm d s f = s f) ∧
    (∀ (d : RepairOrderFormData) (s : RoField → String) (f : RoField),
      fillRepairOrderForm d s f = "" → s f = "") ∧
    (∀ (a : AppointmentFormData) (t : ApptField → String) (f : ApptField),
      a.field f = some "" → fillAppointmentForm a t f = t f) ∧
    (∀ (a : AppointmentFormData) (t : ApptField → String) (f : ApptField),
      fillAppointmentForm a t f = "" → t f = "") := by
  have hval : ∀ (v : Option String) (old : String), v = some "" → condFillVal v old = old := by
    intro v old h
    rw [h]
    simp [condFillVal]
  have hclear : ∀ (v : Option String) (old : String), condFillVal v old = "" → old = "" := by
    intro v old h
    cases v with
    | none => exact h
    | some x =>
        by_cases hx : x = ""
        · simpa [condFillVal, hx] using h
        · simp [condFillVal, hx] at h
  refine ⟨?_, ?_, ?_, ?_⟩
  · intro d s f h
    rw [fillRepairOrderForm_apply]
    exact hval _ _ h
  · intro d s f h
    rw [fillRepairOrderForm_apply] at h
    exact hclear _ _ h
  · intro a t f h
    rw [fillAppointmentForm_apply]
    exact hval _ _ h
  · intro a t f h
    rw [fillAppointmentForm_apply] at h
    exact hclear _ _ h

/-- C10 witness: explicitly passing the empty string for the notes field of
the appointment form leaves the previously-typed notes in place. -/
theorem C10_falsy_fields_skipped_witness :
    (AppointmentFormData.mk none none none none none none none
        (some "")).field ApptField.notes = some "" ∧
    fillAppointmentForm
        (AppointmentFormData.mk none none none none none none none (some ""))
        (fun _ => "keep me") ApptField.notes = "keep me" :=
  ⟨rfl,
    (C10_falsy_fields_skipped.2.2.1
      (AppointmentFormData.mk none none none none none none none (some ""))
      (fun _ => "keep me") ApptField.notes rfl)⟩

/-- C9: isVisible always returns a boolean rather than throwing; it returns
true exactly when the element becomes visible within 5000 ms, and false both
for an absent element and for one that becomes visible only after 5000 ms. -/
theorem C9_isVisible_total_boolean (el : Option Nat) :
    (∃ b, isVisible el = Except.ok b) ∧
    (isVisible el = Except.ok true ↔ ∃ t, el = some t ∧ t ≤ 5000) ∧
    (el = none → isVisible el = Except.ok false) ∧
    (∀ t, el = some t → 5000 < t → isVisible el = Except.ok false) := by
  cases el with
  | none => simp [isVisible, waitForVisible]
  | some t =>
      by_cases h : t ≤ 5000 <;>
        simp [isVisible, waitForVisible, h]

/-- C9 witness: an element that only becomes visible after 6000 ms yields
false instead of an error. -/
theorem C9_isVisible_total_boolean_witness :
    (some 6000 : Option Nat) = some 6000 ∧ 5000 < 6000 ∧
    isVisible (some 6000) = Except.ok false :=
  ⟨rfl, by decide, (C9_isVisible_total_boolean (some 6000)).2.2.2 6000 rfl (by decide)⟩

/-- C5: one forward navigation followed by one backward navigation returns
the displayed month label to exactly its starting value. -/
theorem C5_calendar_round_trip (s : CalendarState) :
    AppointmentsPage.getCurrentMonth
        (AppointmentsPage.goToPreviousMonth (AppointmentsPage.goToNextMonth s)) =
      AppointmentsPage.getCurrentMonth s := by
  simp [AppointmentsPage.getCurrentMonth, AppointmentsPage.goToNextMonth,
    AppointmentsPage.goToPreviousMonth, clickNextMonthButton,
    clickPreviousMonthButton, waitMs]

lemma strData_append (a b : String) : (a ++ b).data = a.data ++ b.data := rfl

lemma strLength_mk (l : List Char) : (String.mk l).length = l.length := rfl

lemma digitChar_isDigit (d : Nat) (h : d < 10) : (Nat.digitChar d).isDigit = true := by
  interval_cases d <;> decide

lemma decDigits_all_digit (n : Nat) : ∀ c ∈ decDigits n, c.isDigit = true := by
  induction n using Nat.strong_induction_on with
  | _ n ih =>
      intro c hc
      by_cases hn : n < 10
      · rw [decDigits] at hc
        simp [hn] at hc
        rw [hc]
        exact digitChar_isDigit n hn
      · rw [decDigits] at hc
        simp [hn] at hc
        rcases hc with hc | hc
        · exact ih (n / 10) (Nat.div_lt_self (by omega) (by omega)) c hc
        · rw [hc]
          exact digitChar_isDigit (n % 10) (Nat.mod_lt n (by omega))

lemma decDigits_length_le (k : Nat) : ∀ n, n < 10 ^ (k + 1) → (decDigits n).length ≤ k + 1 := by
  induction k with
  | zero =>
      intro n h
      have hn : n < 10 := by simpa using h
      rw [decDigits]
      simp [hn]
  | succ k ih =>
      intro n h
      by_cases hn : n < 10
      · rw [decDigits]
        simp [hn]
      · rw [decDigits]
        simp [hn]
        have h2 : n / 10 < 10 ^ (k + 1) := by
          apply Nat.div_lt_of_lt_mul
          rw [mul_comm, ← pow_succ]
          exact h
        have := ih (n / 10) h2
        omega

lemma decDigits_length_eq (k : Nat) :
    ∀ n, 10 ^ k ≤ n → n < 10 ^ (k + 1) → (decDigits n).length = k + 1 := by
  induction k with
  | zero =>
      intro n h1 h2
      have hn : n < 10 := by simpa using h2
      rw [decDigits]
      simp [hn]
  | succ k ih =>
      intro n h1 h2
      have h10 : 10 ≤ 10 ^ (k + 1) := by
        calc (10:Nat) = 10 ^ 1 := by norm_num
        _ ≤ 10 ^ (k + 1) := Nat.pow_le_pow_right (by norm_num) (by omega)
      have hn : ¬ n < 10 := by omega
      rw [decDigits]
      simp [hn]
      have hdiv1 : 10 ^ k ≤ n / 10 := by
        rw [Nat.le_div_iff_mul_le (by norm_num)]
        calc 10 ^ k * 10 = 10 ^ (k + 1) := (pow_succ 10 k).symm
        _ ≤ n := h1
      have hdiv2 : n / 10 < 10 ^ (k + 1) := by
        apply Nat.div_lt_of_lt_mul
        rw [mul_comm, ← pow_succ]
        exact h2
      rw [ih (n / 10) hdiv1 hdiv2]

lemma padStart_length (s : String) (len : Nat) (c : Char) (h : s.length ≤ len) :
    (padStart s len c).length = len := by
  simp only [padStart, String.length_append, strLength_mk, List.length_replicate]
  omega

lemma padStart_all_digit (s : String) (len : Nat)
    (h : ∀ c ∈ s.data, c.isDigit = true) :
    ∀ c ∈ (padStart s len '0').data, c.isDigit = true := by
  intro c hc
  rw [show (padStart s len '0').data
        = List.replicate (len - s.length) '0' ++ s.data from rfl] at hc
  rcases List.mem_append.mp hc with hc | hc
  · rw [List.eq_of_mem_replicate hc]
    decide
  · exact h c hc

lemma charAt_length (s : String) (i : Nat) (h : i < s.length) :
    (charAt s i).length = 1 := by
  unfold charAt
  cases hg : s.data.get? i with
  | none =>
      rw [List.get?_eq_none] at hg
      have h2 : i < s.data.length := h
      omega
  | some c => rfl

lemma charAt_mem (s : String) (i : Nat) :
    ∀ c ∈ (charAt s i).data, c ∈ s.data := by
  intro c hc
  unfold charAt at hc
  cases hg : s.data.get? i with
  | none =>
      rw [hg] at hc
      simp at hc
  | some c0 =>
      rw [hg] at hc
      simp at hc
      rw [hc]
      exact List.get?_mem hg

lemma vinLoop_length (r : Nat → Nat) (h : ∀ i, r i < 33) (n : Nat) :
    (vinLoop r n).length = n := by
  induction n with
  | zero => rfl
  | succ n ih =>
      have hlen : r n < vinChars.length := by
        have hrn := h n
        have hv : vinChars.length = 33 := rfl
        omega
      rw [vinLoop, String.length_append, ih, charAt_length vinChars (r n) hlen]

lemma vinLoop_mem (r : Nat → Nat) (n : Nat) :
    ∀ c ∈ (vinLoop r n).data, c ∈ vinChars.data := by
  induction n with
  | zero =>
      intro c hc
      simp [vinLoop] at hc
  | succ n ih =>
      intro c hc
      rw [vinLoop, strData_append] at hc
      rcases List.mem_append.mp hc with hc | hc
      · exact ih c hc
      · exact charAt_mem vinChars (r n) c hc

/-- C6: from a Friday or a Saturday, getNextBusinessDay renders the date of
the first Monday after today; from any other day, it renders the date of
tomorrow. -/
theorem C6_getNextBusinessDay_skips_weekend (t : Nat) :
    (dayOfWeek t = 5 ∨ dayOfWeek t = 6 →
      t < followingMonday t ∧ dayOfWeek (followingMonday t) = 1 ∧
      (∀ d, t < d → d < followingMonday t → dayOfWeek d ≠ 1) ∧
      getNextBusinessDay t = formatYMD (civilFromDays (followingMonday t))) ∧
    (dayOfWeek t ≠ 5 → dayOfWeek t ≠ 6 →
      getNextBusinessDay t = formatYMD (civilFromDays (t + 1))) := by
  constructor
  · intro h
    rcases h with h5 | h6
    · have hfm : followingMonday t = t + 3 := by
        unfold followingMonday
        rw [h5]
        show t + (if (8 - 5) % 7 = 0 then 7 else (8 - 5) % 7) = t + 3
        norm_num
      refine ⟨by omega, ?_, ?_, ?_⟩
      · rw [hfm]
        unfold dayOfWeek at h5 ⊢
        omega
      · intro d hd1 hd2
        rw [hfm] at hd2
        unfold dayOfWeek at h5 ⊢
        omega
      · rw [hfm]
        unfold getNextBusinessDay
        rw [h5]
        norm_num
    · have hfm : followingMonday t = t + 2 := by
        unfold followingMonday
        rw [h6]
        show t + (if (8 - 6) % 7 = 0 then 7 else (8 - 6) % 7) = t + 2
        norm_num
      refine ⟨by omega, ?_, ?_, ?_⟩
      · rw [hfm]
        unfold dayOfWeek at h6 ⊢
        omega
      · intro d hd1 hd2
        rw [hfm] at hd2
        unfold dayOfWeek at h6 ⊢
        omega
      · rw [hfm]
        unfold getNextBusinessDay
        rw [h6]
        norm_num
  · intro h5 h6
    unfold getNextBusinessDay
    simp [h5, h6]

/-- C6 witness: day 1 is Friday 1970-01-02; the helper lands on the Monday
three days later. -/
theorem C6_getNextBusinessDay_skips_weekend_witness :
    (dayOfWeek 1 = 5 ∨ dayOfWeek 1 = 6) ∧
    (1 < followingMonday 1 ∧ dayOfWeek (followingMonday 1) = 1 ∧
      (∀ d, 1 < d → d < followingMonday 1 → dayOfWeek d ≠ 1) ∧
      getNextBusinessDay 1 = formatYMD (civilFromDays (followingMonday 1))) :=
  ⟨by decide, (C6_getNextBusinessDay_skips_weekend 1).1 (by decide)⟩

/-- C7: every generated VIN is 17 characters long and drawn entirely from
the VIN alphabet, which consists of digits and uppercase letters with I, O
and Q excluded. -/
theorem C7_generateRandomVIN_shape (r : Nat → Nat) (h : ∀ i, r i < 33) :
    (generateRandomVIN r).length = 17 ∧
    (∀ c ∈ (generateRandomVIN r).data, c ∈ vinChars.data) ∧
    (∀ c ∈ vinChars.data,
      (c.isUpper = true ∨ c.isDigit = true) ∧ c ≠ 'I' ∧ c ≠ 'O' ∧ c ≠ 'Q') := by
  refine ⟨vinLoop_length r h 17, vinLoop_mem r 17, by decide⟩

/-- C7 witness: the VIN produced when every random draw is 0. -/
theorem C7_generateRandomVIN_shape_witness :
    (∀ i : Nat, (fun _ : Nat => 0) i < 33) ∧
    (generateRandomVIN (fun _ : Nat => 0)).length = 17 :=
  ⟨fun _ => by norm_num,
    (C7_generateRandomVIN_shape (fun _ : Nat => 0) (fun _ => by norm_num)).1⟩

/-- C8: a generated order number is the literal "RO-", the four decimal
digits of the current year, a dash, and five decimal digits padded with
leading zeros. -/
theorem C8_generateOrderNumber_pattern (year rnd : Nat)
    (hy1 : 1000 ≤ year) (hy2 : year < 10000) (hr : rnd < 99999) :
    generateOrderNumber year rnd =
      "RO-" ++ decString year ++ "-" ++ padStart (decString rnd) 5 '0' ∧
    (decString year).length = 4 ∧
    (∀ c ∈ (decString year).data, c.isDigit = true) ∧
    (padStart (decString rnd) 5 '0').length = 5 ∧
    (∀ c ∈ (padStart (decString rnd) 5 '0').data, c.isDigit = true) := by
  refine ⟨rfl, ?_, ?_, ?_, ?_⟩
  · show (decDigits year).length = 4
    exact decDigits_length_eq 3 year (by norm_num [hy1]) (by norm_num [hy2])
  · exact decDigits_all_digit year
  · apply padStart_length
    show (decDigits rnd).length ≤ 5
    exact decDigits_length_le 4 rnd
      (by have hp : (10:Nat) ^ (4 + 1) = 100000 := by norm_num
          omega)
  · exact padStart_all_digit (decString rnd) 5 (decDigits_all_digit rnd)

/-- C8 witness: the order number for year 2024 and random draw 42. -/
theorem C8_generateOrderNumber_pattern_witness :
    (1000 ≤ 2024 ∧ 2024 < 10000 ∧ 42 < 99999) ∧
    ((decString 2024).length = 4 ∧ (padStart (decString 42) 5 '0').length = 5) :=
  ⟨by decide,
    ⟨(C8_generateOrderNumber_pattern 2024 42 (by decide) (by decide) (by decide)).2.1,
      (C8_generateOrderNumber_pattern 2024 42 (by decide) (by decide)
        (by decide)).2.2.2.1⟩⟩

